import Mathlib

/-!
Shallow embedding of the manifest / study-XML generation core of the
`assembly_uploader` repository (files `assembly_uploader/assembly_manifest.py`
and `assembly_uploader/study_xmls.py`).

Modelling conventions:
* The filesystem is an association list from path strings to file contents
  (a file's content is its byte string, modelled as `String`).
* `hashlib.md5` is an external primitive: it is taken as a parameter
  `md5hex : String → String` mapping full file content to a hex digest.
  The source's `get_md5` streams the file in 4096-byte chunks into one
  `hashlib.md5` object, which by the definition of incremental hashing
  equals the digest of the full content; hence the parameter is applied
  to the whole content.
* The ENA query collaborator (`EnaQuery(acc, private).build_query()`) is a
  parameter `fetch : String → RunMeta` (for runs) resp.
  `String → Bool → Option StudyObj` (for studies).
* Python `set` iteration order for strings depends on the interpreter's
  randomized hash seed.  A set's *contents* are modelled canonically as the
  insertion-order deduplicated list (`pySet`); every place the source
  *iterates* a set in an order-sensitive way (`",".join(instruments)`),
  the model takes an explicit ordering function `setOrder` standing for the
  interpreter's set-iteration order, which permutes the distinct elements.
-/

set_option maxRecDepth 8000

namespace AssemblyUploader

/-- Filesystem: association list, path ↦ content. -/
abbrev FS := List (String × String)

def FS.read (fs : FS) (p : String) : Option String :=
  (fs.find? (fun e => e.1 == p)).map (·.2)

def FS.hasFile (fs : FS) (p : String) : Bool :=
  (fs.find? (fun e => e.1 == p)).isSome

/-- `open(path, "w")` followed by writing `c`. -/
def FS.write (fs : FS) (p c : String) : FS :=
  (p, c) :: fs.filter (fun e => e.1 != p)

/-- One record returned by the ENA portal for a run accession. -/
structure RunMeta where
  sample_accession : String
  instrument_model : String
deriving Repr, DecidableEq

/-- One parsed CSV row of the assemblies metadata file.
`Sample` is `row.get("Sample")`: `none` when the column is absent
(`some ""` when present but empty, which is falsy in Python). -/
structure CsvRow where
  Runs : String
  Coverage : String
  Assembler : String
  Version : String
  Filepath : String
  Sample : Option String
deriving Repr, DecidableEq

/-- The configuration fields of `AssemblyManifestGenerator.__init__`.
`priv` embeds the Python `private` flag (a Lean keyword). -/
structure GenCfg where
  study : String
  new_project : String
  upload_dir : String
  force : Bool
  priv : Bool
  tpa : Bool
  test : Bool
deriving Repr, DecidableEq

/-- `__init__`: `upload_dir = (output_dir or Path(".")) / f"{study}_upload"`. -/
def mkGenCfg (study new_project : String) (output_dir : Option String)
    (force priv tpa test : Bool) : GenCfg :=
  { study := study, new_project := new_project,
    upload_dir := (output_dir.getD ".") ++ "/" ++ study ++ "_upload",
    force := force, priv := priv, tpa := tpa, test := test }

/-- The accepted assembly-file extensions (`valid_extensions` in the source). -/
def valid_extensions : List String := [".fa.gz", ".fna.gz", ".fasta.gz"]

/-- `str(assembly_path).endswith(valid_extensions)`: the path ends with one
of the accepted extensions (suffix test on the character sequence). -/
def extOk (p : String) : Bool :=
  valid_extensions.any (fun e => e.data.isSuffixOf p.data)

/-- Python set contents: insertion-order deduplicated accumulation
(`s = set(); for x in xs: s.add(x)`). -/
def pySet (xs : List String) : List String :=
  xs.foldl (fun acc x => if x ∈ acc then acc else acc ++ [x]) []

/-- Result of one `generate_manifest` call: the returned value
(`Path | None`, as the path string), the filesystem afterwards, and
whether this call performed a write. -/
structure GenOut where
  result : Option String
  fs : FS
  wrote : Bool
deriving Repr, DecidableEq

/-- `KEY\tVALUE\n`, as written by one iteration of the output loop. -/
def manifestLine (k v : String) : String := k ++ "\t" ++ v ++ "\n"

/-- The file content produced by the output loop over the `values` tuple. -/
def renderManifest : List (String × String) → String
  | [] => ""
  | kv :: rest => manifestLine kv.1 kv.2 ++ renderManifest rest

/-- `AssemblyManifestGenerator.generate_manifest`.
`nowIso` is `datetime.now().isoformat()`; in test mode the source computes
`hash_part` from it and never uses it (the binding is kept, unused, to
mirror the source). `runs.headD ""` embeds `runs[0]` (claims about this
function assume a non-empty run list, as `write_manifests` always passes
the result of `str.split`, which is non-empty). -/
def generate_manifest (md5hex : String → String) (cfg : GenCfg) (fs : FS)
    (runs : List String)
    (sample sequencer coverage assembler assembler_version : String)
    (assembly_path : String) (nowIso : String) : GenOut :=
  let runs_str := String.intercalate "," runs
  if !(FS.hasFile fs assembly_path) then
    { result := none, fs := fs, wrote := false }
  else if !(extOk assembly_path) then
    { result := none, fs := fs, wrote := false }
  else
    let assembly_md5 := md5hex ((FS.read fs assembly_path).getD "")
    let assembly_alias :=
      runs.headD "" ++ (if runs.length > 1 then "_others" else "") ++ "_" ++ assembly_md5
    let _hash_part : Option String :=
      if cfg.test then some ((md5hex nowIso).take 8) else none
    let assembler2 := assembler ++ " v" ++ assembler_version
    let manifest_path := cfg.upload_dir ++ "/" ++ assembly_md5 ++ ".manifest"
    if FS.hasFile fs manifest_path && !cfg.force then
      { result := some manifest_path, fs := fs, wrote := false }
    else
      let values : List (String × String) :=
        [("STUDY", cfg.new_project),
         ("SAMPLE", sample),
         ("RUN_REF", runs_str),
         ("ASSEMBLYNAME", assembly_alias),
         ("ASSEMBLY_TYPE", "primary metagenome"),
         ("COVERAGE", coverage),
         ("PROGRAM", assembler2),
         ("PLATFORM", sequencer),
         ("FASTA", assembly_path),
         ("TPA", if cfg.tpa then "true" else "false")]
      { result := some manifest_path,
        fs := FS.write fs manifest_path (renderManifest values),
        wrote := true }

def pySplitAux (sep : Char) : List Char → List Char → List String
  | [], acc => [String.mk acc.reverse]
  | c :: cs, acc =>
    if c = sep then String.mk acc.reverse :: pySplitAux sep cs []
    else pySplitAux sep cs (c :: acc)

/-- Python `s.split(sep)` for a one-character separator (as in
`row["Runs"].split(",")`): splits at every separator occurrence, keeping
empty pieces, and yields `[""]` on the empty string. -/
def pySplit (sep : Char) (s : String) : List String := pySplitAux sep s.data []

/-- Outcome of one CSV row in `write_manifests`: either the row was skipped
because no single sample accession could be attributed (`continue`), or
`generate_manifest` was invoked with the resolved sample and platform. -/
inductive RowResult where
  | skippedSampleConflict : RowResult
  | ran (sample platform : String) (g : GenOut) : RowResult
deriving Repr, DecidableEq

def RowResult.sampleUsed : RowResult → Option String
  | .skippedSampleConflict => none
  | .ran s _ _ => some s

def RowResult.platformUsed : RowResult → Option String
  | .skippedSampleConflict => none
  | .ran _ p _ => some p

/-- Sample resolution in the `write_manifests` loop: the single fetched
sample accession if the set of distinct accessions is a singleton
(`len(sample_accessions) == 1`, then `.pop()`), else a truthy `Sample`
override from the row, else `none` (the row is skipped). -/
def resolveSample (fetch : String → RunMeta) (row : CsvRow) : Option String :=
  let sample_accessions :=
    pySet (((pySplit ',' row.Runs).map fetch).map (·.sample_accession))
  if sample_accessions.length = 1 then
    some (sample_accessions.headD "")
  else
    match row.Sample with
    | some s => if s = "" then none else some s
    | none => none

/-- The loop body of `write_manifests` for one CSV row.
`fetch` embeds `EnaQuery(run, private).build_query()`; `setOrder` is the
interpreter's set-iteration order (see the module header). -/
def processRow (md5hex : String → String) (fetch : String → RunMeta)
    (setOrder : List String → List String) (cfg : GenCfg) (fs : FS)
    (row : CsvRow) (nowIso : String) : RowResult × FS :=
  match resolveSample fetch row with
  | none => (.skippedSampleConflict, fs)
  | some sample_accession =>
      let instruments :=
        pySet (((pySplit ',' row.Runs).map fetch).map (·.instrument_model))
      let platform := String.intercalate "," (setOrder instruments)
      let g := generate_manifest md5hex cfg fs (pySplit ',' row.Runs)
        sample_accession platform
        row.Coverage row.Assembler row.Version row.Filepath nowIso
      (.ran sample_accession platform g, g.fs)

/-- `write_manifests`: fold the row loop over the parsed CSV,
collecting one outcome per row. -/
def write_manifests (md5hex : String → String) (fetch : String → RunMeta)
    (setOrder : List String → List String) (cfg : GenCfg) (fs : FS)
    (rows : List CsvRow) (nowIso : String) : List RowResult × FS :=
  rows.foldl
    (fun acc row =>
      let r := processRow md5hex fetch setOrder cfg acc.2 row nowIso
      (acc.1 ++ [r.1], r.2))
    ([], fs)

/-! ### `study_xmls.py` -/

/-- The study record returned by the ENA portal for a study accession. -/
structure StudyObj where
  study_accession : String
  study_title : String
  first_public : String
deriving Repr, DecidableEq

/-- A calendar date, standing for a Python `datetime` used only through
`strftime`. -/
structure Date where
  year : Nat
  month : Nat
  day : Nat
deriving Repr, DecidableEq

def pad2 (n : Nat) : String := if n < 10 then "0" ++ toString n else toString n

/-- `d.strftime("%d-%m-%Y")` (for four-digit years). -/
def strftime_dmy (d : Date) : String :=
  pad2 d.day ++ "-" ++ pad2 d.month ++ "-" ++ toString d.year

def charListLt : List Char → List Char → Bool
  | [], [] => false
  | [], _ :: _ => true
  | _ :: _, [] => false
  | a :: as, b :: bs =>
    if a < b then true else if b < a then false else charListLt as bs

/-- Python's `<` on strings: lexicographic comparison by code point. -/
def pyStrLt (a b : String) : Bool := charListLt a.data b.data

/-- XML trees as built through `xml.etree.ElementTree`. -/
inductive Xml where
  | elem (tag : String) (attrs : List (String × String)) (children : List Xml)
  | text (s : String)
deriving Repr

def Xml.tag : Xml → String
  | .elem t _ _ => t
  | .text _ => ""

def Xml.attrs : Xml → List (String × String)
  | .elem _ a _ => a
  | .text _ => []

def Xml.children : Xml → List Xml
  | .elem _ _ cs => cs
  | .text _ => []

/-- The immediate text content of an element (its `.text`). -/
def Xml.innerText : Xml → Option String
  | .elem _ _ (.text s :: _) => some s
  | _ => none

def METAGENOME : String := "metagenome"
def METATRANSCRIPTOME : String := "metatranscriptome"

/-- Python `str.title()` for the strings this program applies it to
(alphabetic runs start uppercase, the rest of the run lowercased). -/
def pyTitleAux : Bool → List Char → List Char
  | _, [] => []
  | prev, c :: cs =>
    if c.isAlpha then
      (if prev then c.toLower else c.toUpper) :: pyTitleAux true cs
    else
      c :: pyTitleAux false cs

def pyTitle (s : String) : String := ⟨pyTitleAux false s.data⟩

/-- The state of a constructed `StudyXMLGenerator` (the fields its two
`write_*` methods read). -/
structure StudyXMLGenerator where
  study : String
  center : String
  library : String
  hold_date : Option Date
  tpa : Bool
  publication : Option Nat
  priv : Bool
  study_obj : StudyObj
deriving Repr, DecidableEq

/-- `StudyXMLGenerator.__init__`: asserts the library type is one of the
two allowed constants, then eagerly resolves the study record through the
ENA query collaborator `fetch` (construction fails — an exception in
Python, `none` here — when the assertion or the resolution fails). -/
def StudyXMLGenerator.init (fetch : String → Bool → Option StudyObj)
    (study center_name library : String) (hold_date : Option Date)
    (tpa : Bool) (publication : Option Nat) (priv : Bool) :
    Option StudyXMLGenerator :=
  if library = METAGENOME ∨ library = METATRANSCRIPTOME then
    match fetch study priv with
    | some so =>
        some { study := study, center := center_name, library := library,
               hold_date := hold_date, tpa := tpa, publication := publication,
               priv := priv, study_obj := so }
    | none => none
  else
    none

/-- A `PROJECT_ATTRIBUTE` element with a `TAG` and a `VALUE` child. -/
def projectAttribute (tag value : String) : Xml :=
  .elem "PROJECT_ATTRIBUTE" []
    [.elem "TAG" [] [.text tag], .elem "VALUE" [] [.text value]]

/-- `StudyXMLGenerator.write_study_xml`: the `PROJECT_SET` tree written to
`{study}_reg.xml` (serialization to bytes is outside the model). -/
def write_study_xml (g : StudyXMLGenerator) : Xml :=
  let subtitle := pyTitle g.library
  let sub_abstract := if g.tpa then "Third Party Annotation (TPA) " else ""
  let title :=
    subtitle ++ " assembly of " ++ g.study_obj.study_accession ++
      " data set (" ++ g.study_obj.study_title ++ ")"
  let abstract :=
    "The " ++ sub_abstract ++ "assembly was derived from the primary data set "
      ++ g.study_obj.study_accession
  let project_alias := g.study_obj.study_accession ++ "_assembly"
  Xml.elem "PROJECT_SET" []
    [Xml.elem "PROJECT" [("alias", project_alias), ("center_name", g.center)]
      ([Xml.elem "TITLE" [] [.text title],
        Xml.elem "DESCRIPTION" [] [.text abstract],
        Xml.elem "SUBMISSION_PROJECT" [] [Xml.elem "SEQUENCING_PROJECT" [] []]]
       ++ (if g.publication.getD 0 ≠ 0 then
            [Xml.elem "PROJECT_LINKS" []
              [Xml.elem "PROJECT_LINK" []
                [Xml.elem "XREF_LINK" []
                  [Xml.elem "DB" [] [.text "PUBMED"],
                   Xml.elem "ID" [] [.text (toString (g.publication.getD 0))]]]]]
          else [])
       ++ [Xml.elem "PROJECT_ATTRIBUTES" []
            ((if g.tpa then [projectAttribute "study keyword" "TPA:assembly"]
              else [])
             ++ [projectAttribute "new_study_type" (g.library ++ " assembly")])])]

/-- `StudyXMLGenerator.write_submission_xml`: the `SUBMISSION` tree written
to `{study}_submission.xml`. `today` is `datetime.today().strftime("%Y-%m-%d")`;
`public > today` is Python's lexicographic string comparison (`pyStrLt
today public`). -/
def write_submission_xml (g : StudyXMLGenerator) (today : String) : Xml :=
  let addAction := Xml.elem "ACTION" [] [Xml.elem "ADD" [] []]
  let public := g.study_obj.first_public
  let holdActions : List Xml :=
    match g.hold_date with
    | some d =>
        [Xml.elem "ACTION" []
          [Xml.elem "HOLD" [("HoldUntilDate", strftime_dmy d)] []]]
    | none =>
        if pyStrLt today public then
          [Xml.elem "ACTION" [] [Xml.elem "HOLD" [("HoldUntilDate", public)] []]]
        else
          []
  Xml.elem "SUBMISSION" [("center_name", g.center)]
    [Xml.elem "ACTIONS" [] ([addAction] ++ holdActions)]

/-- Is this element an `ACTION` holding a `HOLD` child? -/
def isHoldAction (x : Xml) : Bool :=
  match x with
  | .elem "ACTION" _ cs =>
      cs.any (fun c => match c with | .elem "HOLD" _ _ => true | _ => false)
  | _ => false

/-- The `HoldUntilDate` attribute values of the `HOLD` children of an
`ACTION` element. -/
def holdAttrValues (x : Xml) : List String :=
  match x with
  | .elem "ACTION" _ cs =>
      cs.filterMap (fun c =>
        match c with
        | .elem "HOLD" attrs _ => attrs.lookup "HoldUntilDate"
        | _ => none)
  | _ => []

/-- All `HoldUntilDate` values among a list of actions. -/
def holdDates (l : List Xml) : List String := (l.map holdAttrValues).flatten

/-- The children of the `ACTIONS` element of a `SUBMISSION` tree. -/
def actionsOf (sub : Xml) : List Xml := ((sub.children).headD (.text "")).children

/-! ### Measures and concrete instances used to evaluate the theorems -/

/-- Number of line-feed characters in a string (a file whose content ends in
`\n` consists of exactly `countLF content` LF-terminated lines). -/
def countLF (s : String) : Nat := s.data.count '\n'

/-- A concrete stand-in for the external `hashlib.md5` hex digest. -/
def md5demo : String → String := fun s => "d41d8cd98f00b204e9800998ecf8427e".take (26 + s.length % 6)

/-- A concrete generator configuration. -/
def cfgDemo : GenCfg := mkGenCfg "ERP125469" "PRJ1" none false false true false

/-- A concrete filesystem with one assembly file. -/
def fsDemo : FS := [("a.fa.gz", "ACGT")]

/-- A concrete ENA run-metadata collaborator. -/
def fetchDemo : String → RunMeta := fun r =>
  if r = "ERR1" then ⟨"SAMEA1", "DNBSEQ-G400"⟩
  else if r = "ERR2" then ⟨"SAMEA2", "ILLUMINA"⟩
  else if r = "ERR3" then ⟨"SAMEA1", "ILLUMINA"⟩
  else ⟨"SAMEA0", "M0"⟩

/-- One possible set-iteration order (the already canonical one). -/
def ordA : List String → List String := fun l => l

/-- Another possible set-iteration order (reversed). -/
def ordB : List String → List String := fun l => l.reverse

/-- A filesystem that also has a file with a disallowed extension. -/
def fsDemo2 : FS := [("a.fa.gz", "ACGT"), ("a.txt", "ACGT")]

/-- A filesystem where the manifest derived for `a.fa.gz` under `cfgDemo`
already exists (`md5demo "ACGT" = "d41d8cd98f00b204e9800998ecf842"`). -/
def fsDemoPre : FS :=
  [("a.fa.gz", "ACGT"),
   ("./ERP125469_upload/d41d8cd98f00b204e9800998ecf842.manifest", "OLD")]

/-- `cfgDemo` with `force` set. -/
def cfgForce : GenCfg := { cfgDemo with force := true }

/-- The study record of the repository's test fixture. -/
def studyDemo : StudyObj :=
  ⟨"PRJEB41657", "HoloFood Salmon Trial A+B Gut Metagenome", "2022-08-02"⟩

/-- A concrete ENA study collaborator. -/
def fetchStudyDemo : String → Bool → Option StudyObj := fun s _ =>
  if s = "ERP125469" then some studyDemo else none

/-- A constructed generator matching the repository's test fixture. -/
def gHolo : StudyXMLGenerator :=
  { study := "ERP125469", center := "EMG", library := METAGENOME,
    hold_date := none, tpa := true, publication := some 1234, priv := false,
    study_obj := studyDemo }

/-- A row whose two runs agree on the sample accession (and also carry an
explicit override, which the code must ignore) but differ in instrument. -/
def rowAgree : CsvRow :=
  ⟨"ERR1,ERR3", "10", "spades", "3.15", "a.fa.gz", some "OVERRIDE"⟩

/-- A row whose runs disagree on the sample accession, with an override. -/
def rowOverride : CsvRow :=
  ⟨"ERR1,ERR2", "10", "spades", "3.15", "a.fa.gz", some "SAMEA9"⟩

/-- A row whose runs disagree on the sample accession, with no override. -/
def rowConflict : CsvRow :=
  ⟨"ERR1,ERR2", "10", "spades", "3.15", "a.fa.gz", none⟩

/-- `gHolo` with an explicit hold date. -/
def gHold : StudyXMLGenerator := { gHolo with hold_date := some ⟨2024, 3, 5⟩ }

/-- `gHolo` with a study whose release date is in the far future. -/
def gFuture : StudyXMLGenerator :=
  { gHolo with study_obj := ⟨"PRJEB41657", "T", "2999-01-01"⟩ }

/-! ### Helper lemmas -/

theorem FS.read_write_self (fs : FS) (p c : String) :
    FS.read (FS.write fs p c) p = some c := by
  simp [FS.read, FS.write, List.find?]

theorem FS.hasFile_eq_isSome (fs : FS) (p : String) :
    FS.hasFile fs p = (FS.read fs p).isSome := by
  unfold FS.hasFile FS.read
  cases fs.find? (fun e => e.1 == p) <;> rfl

theorem FS.hasFile_of_read_some {fs : FS} {p c : String}
    (h : FS.read fs p = some c) : FS.hasFile fs p = true := by
  rw [FS.hasFile_eq_isSome, h]; rfl

theorem FS.hasFile_of_read_none {fs : FS} {p : String}
    (h : FS.read fs p = none) : FS.hasFile fs p = false := by
  rw [FS.hasFile_eq_isSome, h]; rfl

theorem String.data_append_eq (s t : String) : (s ++ t).data = s.data ++ t.data := rfl

theorem countLF_append (s t : String) :
    countLF (s ++ t) = countLF s + countLF t := by
  simp [countLF, String.data_append_eq, List.count_append]

theorem countLF_tab : countLF "\t" = 0 := by decide

theorem countLF_nl : countLF "\n" = 1 := by decide

theorem countLF_manifestLine (k v : String) :
    countLF (manifestLine k v) = countLF k + countLF v + 1 := by
  simp [manifestLine, countLF_append, countLF_tab, countLF_nl]

theorem countLF_render (l : List (String × String)) :
    countLF (renderManifest l)
      = (l.map (fun kv => countLF kv.1 + countLF kv.2 + 1)).sum := by
  induction l with
  | nil => simp [renderManifest, countLF]
  | cons kv rest ih => simp [renderManifest, countLF_append, countLF_manifestLine, ih]

theorem pySet_aux (xs acc : List String) :
    (∀ y, y ∈ xs.foldl (fun a x => if x ∈ a then a else a ++ [x]) acc
        ↔ y ∈ acc ∨ y ∈ xs)
    ∧ (acc.Nodup →
        (xs.foldl (fun a x => if x ∈ a then a else a ++ [x]) acc).Nodup) := by
  induction xs generalizing acc with
  | nil => simp
  | cons x xs ih =>
    constructor
    · intro y
      rw [List.foldl_cons, (ih _).1 y]
      by_cases hx : x ∈ acc
      · simp only [if_pos hx, List.mem_cons]
        constructor
        · rintro (h | h)
          · exact Or.inl h
          · exact Or.inr (Or.inr h)
        · rintro (h | h | h)
          · exact Or.inl h
          · exact Or.inl (h ▸ hx)
          · exact Or.inr h
      · simp only [if_neg hx, List.mem_append, List.mem_singleton, List.mem_cons]
        tauto
    · intro hnd
      rw [List.foldl_cons]
      refine (ih _).2 ?_
      by_cases hx : x ∈ acc
      · simpa [if_pos hx] using hnd
      · rw [if_neg hx]
        simp [List.nodup_append, hnd, hx]

theorem mem_pySet (xs : List String) (y : String) : y ∈ pySet xs ↔ y ∈ xs := by
  have h := (pySet_aux xs []).1 y
  simpa [pySet] using h

theorem pySet_nodup (xs : List String) : (pySet xs).Nodup := by
  have h := (pySet_aux xs []).2
  simpa [pySet] using h List.nodup_nil

theorem write_manifests_foldl_length (md5hex : String → String)
    (fetch : String → RunMeta) (setOrder : List String → List String)
    (cfg : GenCfg) (nowIso : String) (rows : List CsvRow)
    (acc : List RowResult × FS) :
    (rows.foldl
      (fun acc row =>
        let r := processRow md5hex fetch setOrder cfg acc.2 row nowIso
        (acc.1 ++ [r.1], r.2)) acc).1.length = acc.1.length + rows.length := by
  induction rows generalizing acc with
  | nil => simp
  | cons r rs ih =>
    rw [List.foldl_cons, ih]
    simp
    omega

theorem write_manifests_length (md5hex : String → String)
    (fetch : String → RunMeta) (setOrder : List String → List String)
    (cfg : GenCfg) (fs : FS) (rows : List CsvRow) (nowIso : String) :
    (write_manifests md5hex fetch setOrder cfg fs rows nowIso).1.length
      = rows.length := by
  unfold write_manifests
  rw [write_manifests_foldl_length]
  simp

theorem gm_result_path (md5hex : String → String) (cfg : GenCfg) (fs : FS)
    (runs : List String)
    (sample sequencer coverage assembler assembler_version assembly_path
      nowIso content : String)
    (hread : FS.read fs assembly_path = some content)
    (hext : extOk assembly_path = true) :
    (generate_manifest md5hex cfg fs runs sample sequencer coverage assembler
      assembler_version assembly_path nowIso).result
    = some (cfg.upload_dir ++ "/" ++ md5hex content ++ ".manifest") := by
  simp [generate_manifest, hread, FS.hasFile_of_read_some hread, hext]
  split <;> rfl

theorem gm_wrote_of_unblocked (md5hex : String → String) (cfg : GenCfg)
    (fs : FS) (runs : List String)
    (sample sequencer coverage assembler assembler_version assembly_path
      nowIso content : String)
    (hread : FS.read fs assembly_path = some content)
    (hext : extOk assembly_path = true)
    (hfree : cfg.force = true
      ∨ FS.hasFile fs (cfg.upload_dir ++ "/" ++ md5hex content ++ ".manifest")
        = false) :
    (generate_manifest md5hex cfg fs runs sample sequencer coverage assembler
      assembler_version assembly_path nowIso).wrote = true := by
  have hb : (FS.hasFile fs
      (cfg.upload_dir ++ "/" ++ md5hex content ++ ".manifest") && !cfg.force)
      = false := by
    rcases hfree with h | h <;> simp [h]
  simp [generate_manifest, hread, FS.hasFile_of_read_some hread, hext, hb]

theorem gm_written_content (md5hex : String → String) (cfg : GenCfg)
    (fs : FS) (runs : List String)
    (sample sequencer coverage assembler assembler_version assembly_path
      nowIso content : String)
    (hread : FS.read fs assembly_path = some content)
    (hext : extOk assembly_path = true)
    (hw : (generate_manifest md5hex cfg fs runs sample sequencer coverage
      assembler assembler_version assembly_path nowIso).wrote = true) :
    FS.read (generate_manifest md5hex cfg fs runs sample sequencer coverage
        assembler assembler_version assembly_path nowIso).fs
      (cfg.upload_dir ++ "/" ++ md5hex content ++ ".manifest")
    = some (renderManifest
        [("STUDY", cfg.new_project),
         ("SAMPLE", sample),
         ("RUN_REF", String.intercalate "," runs),
         ("ASSEMBLYNAME", runs.headD ""
            ++ (if runs.length > 1 then "_others" else "")
            ++ "_" ++ md5hex content),
         ("ASSEMBLY_TYPE", "primary metagenome"),
         ("COVERAGE", coverage),
         ("PROGRAM", assembler ++ " v" ++ assembler_version),
         ("PLATFORM", sequencer),
         ("FASTA", assembly_path),
         ("TPA", if cfg.tpa then "true" else "false")]) := by
  by_cases hb : (FS.hasFile fs
      (cfg.upload_dir ++ "/" ++ md5hex content ++ ".manifest") && !cfg.force)
      = true
  · exfalso
    simp [generate_manifest, hread, FS.hasFile_of_read_some hread, hext, hb]
      at hw
  · simp [generate_manifest, hread, FS.hasFile_of_read_some hread, hext] at hb
    have hcond : ¬ (FS.hasFile fs
        (cfg.upload_dir ++ "/" ++ md5hex content ++ ".manifest") = true
        ∧ cfg.force = false) := by
      rintro ⟨h1, h2⟩
      simp [hb h1] at h2
    simp [generate_manifest, hread, FS.hasFile_of_read_some hread, hext, hcond,
      FS.read_write_self]

/-! ### Claim theorems -/

/-- C2: with a non-empty run list and an existing assembly file with an
accepted extension, `generate_manifest` returns the path
`{generator's output (upload) directory}/{digest}.manifest` where the digest
is the hash of the full file bytes; any second assembly path whose file has
byte-identical content maps to the same manifest path; and the written
ASSEMBLYNAME value is `{first_run}_{digest}` for a single run and
`{first_run}_others_{digest}` for more than one run. -/
theorem C2_content_addressed_naming (md5hex : String → String) (cfg : GenCfg)
    (fs : FS) (runs : List String)
    (sample sequencer coverage assembler assembler_version assembly_path
      nowIso content : String)
    (hruns : runs ≠ [])
    (hread : FS.read fs assembly_path = some content)
    (hext : extOk assembly_path = true) :
    (generate_manifest md5hex cfg fs runs sample sequencer coverage assembler
        assembler_version assembly_path nowIso).result
      = some (cfg.upload_dir ++ "/" ++ md5hex content ++ ".manifest")
    ∧ (∀ path2, FS.read fs path2 = some content → extOk path2 = true →
        (generate_manifest md5hex cfg fs runs sample sequencer coverage
            assembler assembler_version path2 nowIso).result
          = some (cfg.upload_dir ++ "/" ++ md5hex content ++ ".manifest"))
    ∧ ((generate_manifest md5hex cfg fs runs sample sequencer coverage
          assembler assembler_version assembly_path nowIso).wrote = true →
        runs.length = 1 →
        FS.read (generate_manifest md5hex cfg fs runs sample sequencer coverage
            assembler assembler_version assembly_path nowIso).fs
          (cfg.upload_dir ++ "/" ++ md5hex content ++ ".manifest")
        = some (renderManifest
            [("STUDY", cfg.new_project),
             ("SAMPLE", sample),
             ("RUN_REF", String.intercalate "," runs),
             ("ASSEMBLYNAME", runs.headD "" ++ "_" ++ md5hex content),
             ("ASSEMBLY_TYPE", "primary metagenome"),
             ("COVERAGE", coverage),
             ("PROGRAM", assembler ++ " v" ++ assembler_version),
             ("PLATFORM", sequencer),
             ("FASTA", assembly_path),
             ("TPA", if cfg.tpa then "true" else "false")]))
    ∧ ((generate_manifest md5hex cfg fs runs sample sequencer coverage
          assembler assembler_version assembly_path nowIso).wrote = true →
        1 < runs.length →
        FS.read (generate_manifest md5hex cfg fs runs sample sequencer coverage
            assembler assembler_version assembly_path nowIso).fs
          (cfg.upload_dir ++ "/" ++ md5hex content ++ ".manifest")
        = some (renderManifest
            [("STUDY", cfg.new_project),
             ("SAMPLE", sample),
             ("RUN_REF", String.intercalate "," runs),
             ("ASSEMBLYNAME", runs.headD "" ++ "_others_" ++ md5hex content),
             ("ASSEMBLY_TYPE", "primary metagenome"),
             ("COVERAGE", coverage),
             ("PROGRAM", assembler ++ " v" ++ assembler_version),
             ("PLATFORM", sequencer),
             ("FASTA", assembly_path),
             ("TPA", if cfg.tpa then "true" else "false")])) := by
  refine ⟨?_, ?_, ?_, ?_⟩
  · exact gm_result_path md5hex cfg fs runs sample sequencer coverage assembler
      assembler_version assembly_path nowIso content hread hext
  · intro path2 h2 e2
    exact gm_result_path md5hex cfg fs runs sample sequencer coverage assembler
      assembler_version path2 nowIso content h2 e2
  · intro hw hlen
    have h := gm_written_content md5hex cfg fs runs sample sequencer coverage
      assembler assembler_version assembly_path nowIso content hread hext hw
    have hite : (if runs.length > 1 then "_others" else "") = "" := by
      simp [hlen]
    rw [hite, String.append_empty] at h
    exact h
  · intro hw hlen
    have h := gm_written_content md5hex cfg fs runs sample sequencer coverage
      assembler assembler_version assembly_path nowIso content hread hext hw
    have hite : (if runs.length > 1 then "_others" else "") = "_others" := by
      simp [hlen]
    rw [hite, String.append_assoc (runs.headD "") "_others" "_"] at h
    exact h

/-- C2 witness: concrete single-run and two-run calls over the same file,
returning the same content-addressed path, with the two alias shapes. -/
theorem C2_content_addressed_naming_witness :
    ((["ERR1"] : List String) ≠ [] ∧ FS.read fsDemo "a.fa.gz" = some "ACGT"
      ∧ extOk "a.fa.gz" = true)
    ∧ (generate_manifest md5demo cfgDemo fsDemo ["ERR1"] "S" "I" "10" "spades"
        "3.15" "a.fa.gz" "t").result
      = some ("./ERP125469_upload/" ++ md5demo "ACGT" ++ ".manifest")
    ∧ FS.read (generate_manifest md5demo cfgDemo fsDemo ["ERR1"] "S" "I" "10"
          "spades" "3.15" "a.fa.gz" "t").fs
        ("./ERP125469_upload/" ++ md5demo "ACGT" ++ ".manifest")
      = some (renderManifest
          [("STUDY", "PRJ1"), ("SAMPLE", "S"), ("RUN_REF", "ERR1"),
           ("ASSEMBLYNAME", "ERR1" ++ "_" ++ md5demo "ACGT"),
           ("ASSEMBLY_TYPE", "primary metagenome"), ("COVERAGE", "10"),
           ("PROGRAM", "spades v3.15"), ("PLATFORM", "I"),
           ("FASTA", "a.fa.gz"), ("TPA", "true")])
    ∧ (generate_manifest md5demo cfgDemo fsDemo ["ERR1", "ERR2"] "S" "I" "10"
        "spades" "3.15" "a.fa.gz" "t").result
      = some ("./ERP125469_upload/" ++ md5demo "ACGT" ++ ".manifest")
    ∧ FS.read (generate_manifest md5demo cfgDemo fsDemo ["ERR1", "ERR2"] "S"
          "I" "10" "spades" "3.15" "a.fa.gz" "t").fs
        ("./ERP125469_upload/" ++ md5demo "ACGT" ++ ".manifest")
      = some (renderManifest
          [("STUDY", "PRJ1"), ("SAMPLE", "S"), ("RUN_REF", "ERR1,ERR2"),
           ("ASSEMBLYNAME", "ERR1" ++ "_others_" ++ md5demo "ACGT"),
           ("ASSEMBLY_TYPE", "primary metagenome"), ("COVERAGE", "10"),
           ("PROGRAM", "spades v3.15"), ("PLATFORM", "I"),
           ("FASTA", "a.fa.gz"), ("TPA", "true")]) :=
  ⟨⟨by decide, by decide, by decide⟩,
   (C2_content_addressed_naming md5demo cfgDemo fsDemo ["ERR1"] "S" "I" "10"
      "spades" "3.15" "a.fa.gz" "t" "ACGT" (by decide) (by decide)
      (by decide)).1,
   (C2_content_addressed_naming md5demo cfgDemo fsDemo ["ERR1"] "S" "I" "10"
      "spades" "3.15" "a.fa.gz" "t" "ACGT" (by decide) (by decide)
      (by decide)).2.2.1 (by decide) (by decide),
   (C2_content_addressed_naming md5demo cfgDemo fsDemo ["ERR1", "ERR2"] "S"
      "I" "10" "spades" "3.15" "a.fa.gz" "t" "ACGT" (by decide) (by decide)
      (by decide)).1,
   (C2_content_addressed_naming md5demo cfgDemo fsDemo ["ERR1", "ERR2"] "S"
      "I" "10" "spades" "3.15" "a.fa.gz" "t" "ACGT" (by decide) (by decide)
      (by decide)).2.2.2 (by decide) (by decide)⟩

/-- C1 counterexample: a successful `generate_manifest` call (file exists,
extension accepted, nothing blocks the write — the call writes and returns a
path) whose manifest consists of 11 LF-terminated lines, not 10: the COVERAGE
value `"10\nEXTRA"` is written unescaped, refuting "the manifest file written
consists of exactly 10 lines" as stated for every successful call. -/
theorem C1_counterexample :
    (generate_manifest md5demo cfgDemo fsDemo ["ERR1"] "S" "I" "10\nEXTRA"
      "spades" "3.15" "a.fa.gz" "t").wrote = true
    ∧ (generate_manifest md5demo cfgDemo fsDemo ["ERR1"] "S" "I" "10\nEXTRA"
        "spades" "3.15" "a.fa.gz" "t").result
      = some ("./ERP125469_upload/" ++ md5demo "ACGT" ++ ".manifest")
    ∧ countLF ((FS.read (generate_manifest md5demo cfgDemo fsDemo ["ERR1"] "S"
          "I" "10\nEXTRA" "spades" "3.15" "a.fa.gz" "t").fs
        ("./ERP125469_upload/" ++ md5demo "ACGT" ++ ".manifest")).getD "")
      = 11 := by
  refine ⟨by decide, by decide, by decide⟩

/-- C1 (amended): every successful `generate_manifest` call writes, at the
derived path, exactly the concatenation of the 10 records `KEY\tVALUE\n`
with keys in the order STUDY, SAMPLE, RUN_REF, ASSEMBLYNAME, ASSEMBLY_TYPE,
COVERAGE, PROGRAM, PLATFORM, FASTA, TPA; the ASSEMBLY_TYPE value is the
literal "primary metagenome", the PROGRAM value is
`{assembler_name} v{assembler_version}`, and the TPA value is the lowercase
string of the tpa flag. Provided no written value contains a line feed, the
file consists of exactly 10 LF-terminated lines. -/
theorem C1_manifest_format (md5hex : String → String) (cfg : GenCfg)
    (fs : FS) (runs : List String)
    (sample sequencer coverage assembler assembler_version assembly_path
      nowIso content : String)
    (hread : FS.read fs assembly_path = some content)
    (hext : extOk assembly_path = true)
    (hfree : cfg.force = true
      ∨ FS.hasFile fs (cfg.upload_dir ++ "/" ++ md5hex content ++ ".manifest")
        = false) :
    (generate_manifest md5hex cfg fs runs sample sequencer coverage assembler
      assembler_version assembly_path nowIso).wrote = true
    ∧ FS.read (generate_manifest md5hex cfg fs runs sample sequencer coverage
          assembler assembler_version assembly_path nowIso).fs
        (cfg.upload_dir ++ "/" ++ md5hex content ++ ".manifest")
      = some (renderManifest
          [("STUDY", cfg.new_project),
           ("SAMPLE", sample),
           ("RUN_REF", String.intercalate "," runs),
           ("ASSEMBLYNAME", runs.headD ""
              ++ (if runs.length > 1 then "_others" else "")
              ++ "_" ++ md5hex content),
           ("ASSEMBLY_TYPE", "primary metagenome"),
           ("COVERAGE", coverage),
           ("PROGRAM", assembler ++ " v" ++ assembler_version),
           ("PLATFORM", sequencer),
           ("FASTA", assembly_path),
           ("TPA", if cfg.tpa then "true" else "false")])
    ∧ (countLF cfg.new_project = 0 → countLF sample = 0 →
        countLF (String.intercalate "," runs) = 0 →
        countLF (runs.headD "") = 0 → countLF (md5hex content) = 0 →
        countLF coverage = 0 → countLF assembler = 0 →
        countLF assembler_version = 0 → countLF sequencer = 0 →
        countLF assembly_path = 0 →
        countLF (renderManifest
          [("STUDY", cfg.new_project),
           ("SAMPLE", sample),
           ("RUN_REF", String.intercalate "," runs),
           ("ASSEMBLYNAME", runs.headD ""
              ++ (if runs.length > 1 then "_others" else "")
              ++ "_" ++ md5hex content),
           ("ASSEMBLY_TYPE", "primary metagenome"),
           ("COVERAGE", coverage),
           ("PROGRAM", assembler ++ " v" ++ assembler_version),
           ("PLATFORM", sequencer),
           ("FASTA", assembly_path),
           ("TPA", if cfg.tpa then "true" else "false")]) = 10) := by
  have hw := gm_wrote_of_unblocked md5hex cfg fs runs sample sequencer coverage
    assembler assembler_version assembly_path nowIso content hread hext hfree
  refine ⟨hw, gm_written_content md5hex cfg fs runs sample sequencer coverage
    assembler assembler_version assembly_path nowIso content hread hext hw,
    ?_⟩
  intro h1 h2 h3 h4 h5 h6 h7 h8 h9 h10
  have hoth : countLF (if runs.length > 1 then "_others" else "") = 0 := by
    split <;> decide
  have htpa : countLF (if cfg.tpa then "true" else "false") = 0 := by
    split <;> decide
  rw [countLF_render]
  simp only [List.map_cons, List.map_nil, List.sum_cons, List.sum_nil,
    countLF_append, h1, h2, h3, h4, h5, h6, h7, h8, h9, h10, hoth, htpa]
  decide

/-- C1 witness: a concrete successful call with LF-free values produces the
10-record content with exactly 10 LF-terminated lines. -/
theorem C1_manifest_format_witness :
    (FS.read fsDemo "a.fa.gz" = some "ACGT" ∧ extOk "a.fa.gz" = true
      ∧ (cfgDemo.force = true
        ∨ FS.hasFile fsDemo ("./ERP125469_upload/" ++ md5demo "ACGT"
            ++ ".manifest") = false)
      ∧ countLF "PRJ1" = 0 ∧ countLF "S" = 0 ∧ countLF "ERR1" = 0
      ∧ countLF (md5demo "ACGT") = 0 ∧ countLF "10" = 0)
    ∧ (generate_manifest md5demo cfgDemo fsDemo ["ERR1"] "S" "I" "10" "spades"
        "3.15" "a.fa.gz" "t").wrote = true
    ∧ countLF (renderManifest
        [("STUDY", "PRJ1"), ("SAMPLE", "S"), ("RUN_REF", "ERR1"),
         ("ASSEMBLYNAME", "ERR1" ++ "" ++ "_" ++ md5demo "ACGT"),
         ("ASSEMBLY_TYPE", "primary metagenome"), ("COVERAGE", "10"),
         ("PROGRAM", "spades v3.15"), ("PLATFORM", "I"),
         ("FASTA", "a.fa.gz"), ("TPA", "true")]) = 10 :=
  ⟨⟨by decide, by decide, Or.inr (by decide), by decide, by decide, by decide,
    by decide, by decide⟩,
   (C1_manifest_format md5demo cfgDemo fsDemo ["ERR1"] "S" "I" "10" "spades"
      "3.15" "a.fa.gz" "t" "ACGT" (by decide) (by decide)
      (Or.inr (by decide))).1,
   (C1_manifest_format md5demo cfgDemo fsDemo ["ERR1"] "S" "I" "10" "spades"
      "3.15" "a.fa.gz" "t" "ACGT" (by decide) (by decide)
      (Or.inr (by decide))).2.2 (by decide) (by decide) (by decide) (by decide)
      (by decide) (by decide) (by decide) (by decide) (by decide) (by decide)⟩

/-- C6: when the assembly file does not exist, or its name does not end in
`.fa.gz`, `.fna.gz` or `.fasta.gz`, `generate_manifest` returns `none`
(no exception — the embedding is a total function) and performs no write:
the filesystem is returned unchanged. -/
theorem C6_soft_failure (md5hex : String → String) (cfg : GenCfg) (fs : FS)
    (runs : List String)
    (sample sequencer coverage assembler assembler_version assembly_path
      nowIso : String)
    (h : FS.read fs assembly_path = none ∨ extOk assembly_path = false) :
    generate_manifest md5hex cfg fs runs sample sequencer coverage assembler
      assembler_version assembly_path nowIso
      = { result := none, fs := fs, wrote := false } := by
  rcases h with h | h
  · simp [generate_manifest, FS.hasFile_of_read_none h]
  · rcases hf : FS.hasFile fs assembly_path with _ | _
    · simp [generate_manifest, hf]
    · simp [generate_manifest, hf, h]

/-- C6 witness: a missing file and a `.txt` file are both rejected with no
write. -/
theorem C6_soft_failure_witness :
    ((FS.read fsDemo "missing.fa.gz" = none ∨ extOk "missing.fa.gz" = false)
      ∧ generate_manifest md5demo cfgDemo fsDemo ["ERR1"] "S" "I" "10" "spades"
          "3.15" "missing.fa.gz" "t"
        = { result := none, fs := fsDemo, wrote := false })
    ∧ ((FS.read fsDemo2 "a.txt" = none ∨ extOk "a.txt" = false)
      ∧ generate_manifest md5demo cfgDemo fsDemo2 ["ERR1"] "S" "I" "10" "spades"
          "3.15" "a.txt" "t"
        = { result := none, fs := fsDemo2, wrote := false }) :=
  ⟨⟨Or.inl (by decide),
    C6_soft_failure md5demo cfgDemo fsDemo ["ERR1"] "S" "I" "10" "spades"
      "3.15" "missing.fa.gz" "t" (Or.inl (by decide))⟩,
   ⟨Or.inr (by decide),
    C6_soft_failure md5demo cfgDemo fsDemo2 ["ERR1"] "S" "I" "10" "spades"
      "3.15" "a.txt" "t" (Or.inr (by decide))⟩⟩

/-- C10: the `test` flag has no effect on `generate_manifest`: for any
timestamps observed in the two calls, the result (returned path, filesystem
and write behaviour) with `test := true` is identical to the result with
`test := false` — the timestamp-derived `hash_part` is computed and then
never used. -/
theorem C10_test_flag_no_effect (md5hex : String → String) (cfg : GenCfg)
    (fs : FS) (runs : List String)
    (sample sequencer coverage assembler assembler_version assembly_path
      nowIso1 nowIso2 : String) :
    generate_manifest md5hex { cfg with test := true } fs runs sample sequencer
      coverage assembler assembler_version assembly_path nowIso1
    = generate_manifest md5hex { cfg with test := false } fs runs sample
        sequencer coverage assembler assembler_version assembly_path nowIso2 :=
  rfl

/-- C5: when a file already exists at the derived manifest path:
with `force = false` the call returns that path as success and the
filesystem — in particular the existing manifest — is unchanged;
with `force = true` the call writes, and afterwards the file at the path
holds the freshly rendered manifest (even when that content is identical
to what was there). -/
theorem C5_existing_manifest (md5hex : String → String) (cfg : GenCfg)
    (fs : FS) (runs : List String)
    (sample sequencer coverage assembler assembler_version assembly_path
      nowIso content oldContent : String)
    (hread : FS.read fs assembly_path = some content)
    (hext : extOk assembly_path = true)
    (hpre : FS.read fs (cfg.upload_dir ++ "/" ++ md5hex content ++ ".manifest")
      = some oldContent) :
    (cfg.force = false →
      generate_manifest md5hex cfg fs runs sample sequencer coverage assembler
        assembler_version assembly_path nowIso
      = { result := some (cfg.upload_dir ++ "/" ++ md5hex content ++ ".manifest"),
          fs := fs, wrote := false })
    ∧ (cfg.force = true →
      (generate_manifest md5hex cfg fs runs sample sequencer coverage assembler
        assembler_version assembly_path nowIso).wrote = true
      ∧ FS.read (generate_manifest md5hex cfg fs runs sample sequencer coverage
          assembler assembler_version assembly_path nowIso).fs
          (cfg.upload_dir ++ "/" ++ md5hex content ++ ".manifest")
        = some (renderManifest
            [("STUDY", cfg.new_project),
             ("SAMPLE", sample),
             ("RUN_REF", String.intercalate "," runs),
             ("ASSEMBLYNAME", runs.headD ""
                ++ (if runs.length > 1 then "_others" else "")
                ++ "_" ++ md5hex content),
             ("ASSEMBLY_TYPE", "primary metagenome"),
             ("COVERAGE", coverage),
             ("PROGRAM", assembler ++ " v" ++ assembler_version),
             ("PLATFORM", sequencer),
             ("FASTA", assembly_path),
             ("TPA", if cfg.tpa then "true" else "false")])) := by
  constructor
  · intro hforce
    simp [generate_manifest, hread, FS.hasFile_of_read_some hread, hext,
      FS.hasFile_of_read_some hpre, hforce]
  · intro hforce
    constructor
    · simp [generate_manifest, hread, FS.hasFile_of_read_some hread, hext,
        FS.hasFile_of_read_some hpre, hforce]
    · simp [generate_manifest, hread, FS.hasFile_of_read_some hread, hext,
        FS.hasFile_of_read_some hpre, hforce, FS.read_write_self]

/-- C5 witness: with a pre-existing manifest for `a.fa.gz`, the non-forced
call returns the path and changes nothing, and the forced call rewrites. -/
theorem C5_existing_manifest_witness :
    (FS.read fsDemoPre "a.fa.gz" = some "ACGT"
      ∧ extOk "a.fa.gz" = true
      ∧ FS.read fsDemoPre
          (cfgDemo.upload_dir ++ "/" ++ md5demo "ACGT" ++ ".manifest")
        = some "OLD")
    ∧ generate_manifest md5demo cfgDemo fsDemoPre ["ERR1"] "S" "I" "10" "spades"
        "3.15" "a.fa.gz" "t"
      = { result := some (cfgDemo.upload_dir ++ "/" ++ md5demo "ACGT"
            ++ ".manifest"),
          fs := fsDemoPre, wrote := false }
    ∧ (generate_manifest md5demo cfgForce fsDemoPre ["ERR1"] "S" "I" "10"
        "spades" "3.15" "a.fa.gz" "t").wrote = true :=
  ⟨⟨by decide, by decide, by decide⟩,
   (C5_existing_manifest md5demo cfgDemo fsDemoPre ["ERR1"] "S" "I" "10"
      "spades" "3.15" "a.fa.gz" "t" "ACGT" "OLD" (by decide) (by decide)
      (by decide)).1 rfl,
   ((C5_existing_manifest md5demo cfgForce fsDemoPre ["ERR1"] "S" "I" "10"
      "spades" "3.15" "a.fa.gz" "t" "ACGT" "OLD" (by decide) (by decide)
      (by decide)).2 rfl).1⟩

/-- C3: per CSV row, if the distinct fetched sample accessions form a
singleton set, that accession is used as the sample (even when an explicit
override is present); otherwise a truthy (non-empty) `Sample` override is
used; otherwise the row is skipped with the filesystem unchanged (no
manifest produced) — and a skip never aborts the batch: `write_manifests`
yields one outcome per input row. -/
theorem C3_sample_resolution (md5hex : String → String)
    (fetch : String → RunMeta) (setOrder : List String → List String)
    (cfg : GenCfg) (fs : FS) (row : CsvRow) (nowIso : String) :
    ((pySet (((pySplit ',' row.Runs).map fetch).map
        (·.sample_accession))).length = 1 →
      (processRow md5hex fetch setOrder cfg fs row nowIso).1.sampleUsed
        = some ((pySet (((pySplit ',' row.Runs).map fetch).map
            (·.sample_accession))).headD ""))
    ∧ ((pySet (((pySplit ',' row.Runs).map fetch).map
        (·.sample_accession))).length ≠ 1 →
      ∀ s, row.Sample = some s → s ≠ "" →
      (processRow md5hex fetch setOrder cfg fs row nowIso).1.sampleUsed
        = some s)
    ∧ ((pySet (((pySplit ',' row.Runs).map fetch).map
        (·.sample_accession))).length ≠ 1 →
      (row.Sample = none ∨ row.Sample = some "") →
      processRow md5hex fetch setOrder cfg fs row nowIso
        = (RowResult.skippedSampleConflict, fs))
    ∧ (∀ rows, (write_manifests md5hex fetch setOrder cfg fs rows nowIso).1.length
        = rows.length) := by
  refine ⟨?_, ?_, ?_, fun rows =>
    write_manifests_length md5hex fetch setOrder cfg fs rows nowIso⟩
  · intro h
    rw [List.map_map] at h
    simp [processRow, resolveSample, h, RowResult.sampleUsed]
  · intro h s hs hne
    rw [List.map_map] at h
    simp [processRow, resolveSample, h, hs, hne, RowResult.sampleUsed]
  · intro h hover
    rw [List.map_map] at h
    rcases hover with hover | hover <;>
      simp [processRow, resolveSample, h, hover]

/-- C3 witness: a unanimous row uses the fetched accession (ignoring its
override), a conflicted row with override uses the override, a conflicted
row without override is skipped leaving the filesystem unchanged, and all
three rows still yield three outcomes. -/
theorem C3_sample_resolution_witness :
    ((pySet (((pySplit ',' "ERR1,ERR3").map fetchDemo).map
        (·.sample_accession))).length = 1
      ∧ (processRow md5demo fetchDemo ordA cfgDemo fsDemo rowAgree "t").1.sampleUsed
        = some "SAMEA1")
    ∧ ((pySet (((pySplit ',' "ERR1,ERR2").map fetchDemo).map
        (·.sample_accession))).length ≠ 1
      ∧ rowOverride.Sample = some "SAMEA9"
      ∧ (processRow md5demo fetchDemo ordA cfgDemo fsDemo rowOverride "t").1.sampleUsed
        = some "SAMEA9")
    ∧ (rowConflict.Sample = none
      ∧ processRow md5demo fetchDemo ordA cfgDemo fsDemo rowConflict "t"
        = (RowResult.skippedSampleConflict, fsDemo))
    ∧ (write_manifests md5demo fetchDemo ordA cfgDemo fsDemo
        [rowAgree, rowOverride, rowConflict] "t").1.length = 3 :=
  ⟨⟨by decide,
    (C3_sample_resolution md5demo fetchDemo ordA cfgDemo fsDemo rowAgree
      "t").1 (by decide)⟩,
   ⟨by decide, by decide,
    (C3_sample_resolution md5demo fetchDemo ordA cfgDemo fsDemo rowOverride
      "t").2.1 (by decide) "SAMEA9" (by decide) (by decide)⟩,
   ⟨by decide,
    (C3_sample_resolution md5demo fetchDemo ordA cfgDemo fsDemo rowConflict
      "t").2.2.1 (by decide) (Or.inl (by decide))⟩,
   (C3_sample_resolution md5demo fetchDemo ordA cfgDemo fsDemo rowConflict
      "t").2.2.2 [rowAgree, rowOverride, rowConflict]⟩

/-- C8 counterexample: the claim asserts the PLATFORM string is identical
across any two runs over the same inputs.  `",".join` iterates a Python
`set` of strings, whose order depends on the interpreter's randomized hash
seed: with the same rows and the same fetched records, one valid
set-iteration order yields `"DNBSEQ-G400,ILLUMINA"` and another yields
`"ILLUMINA,DNBSEQ-G400"` — two different PLATFORM strings. -/
theorem C8_counterexample :
    (ordA ["DNBSEQ-G400", "ILLUMINA"]).Perm ["DNBSEQ-G400", "ILLUMINA"]
    ∧ (ordB ["DNBSEQ-G400", "ILLUMINA"]).Perm ["DNBSEQ-G400", "ILLUMINA"]
    ∧ (processRow md5demo fetchDemo ordA cfgDemo fsDemo rowAgree "t").1.platformUsed
      = some "DNBSEQ-G400,ILLUMINA"
    ∧ (processRow md5demo fetchDemo ordB cfgDemo fsDemo rowAgree "t").1.platformUsed
      = some "ILLUMINA,DNBSEQ-G400"
    ∧ (processRow md5demo fetchDemo ordA cfgDemo fsDemo rowAgree "t").1.platformUsed
      ≠ (processRow md5demo fetchDemo ordB cfgDemo fsDemo rowAgree "t").1.platformUsed :=
  ⟨by decide, by decide, by decide, by decide, by decide⟩

/-- C8 (amended): whenever a row produces a manifest, its PLATFORM value is
the comma-join of the distinct instrument models fetched for the row's runs,
in the interpreter's set-iteration order (a permutation of the distinct
models — joined verbatim, never collapsed to "mixed").  The string is a
function of the rows, the fetched records and that iteration order, so runs
sharing the iteration order (e.g. one interpreter process) agree; it need
not be byte-identical across interpreter processes when more than one
distinct model is present. -/
theorem C8_platform_join (md5hex : String → String) (fetch : String → RunMeta)
    (setOrder : List String → List String) (cfg : GenCfg) (fs : FS)
    (row : CsvRow) (nowIso : String)
    (hperm : (setOrder (pySet (((pySplit ',' row.Runs).map fetch).map
        (·.instrument_model)))).Perm
      (pySet (((pySplit ',' row.Runs).map fetch).map (·.instrument_model)))) :
    (∀ p, (processRow md5hex fetch setOrder cfg fs row nowIso).1.platformUsed
        = some p →
      p = String.intercalate "," (setOrder (pySet
            (((pySplit ',' row.Runs).map fetch).map (·.instrument_model))))
      ∧ (setOrder (pySet (((pySplit ',' row.Runs).map fetch).map
            (·.instrument_model)))).Perm
          (pySet (((pySplit ',' row.Runs).map fetch).map (·.instrument_model))))
    ∧ (pySet (((pySplit ',' row.Runs).map fetch).map
        (·.instrument_model))).Nodup
    ∧ (∀ x, x ∈ pySet (((pySplit ',' row.Runs).map fetch).map
        (·.instrument_model))
        ↔ x ∈ ((pySplit ',' row.Runs).map fetch).map (·.instrument_model)) := by
  refine ⟨?_, pySet_nodup _, fun x => mem_pySet _ x⟩
  intro p hp
  rcases hq : resolveSample fetch row with _ | sa
  · simp only [processRow, hq, RowResult.platformUsed] at hp
    exact Option.noConfusion hp
  · simp only [processRow, hq, RowResult.platformUsed] at hp
    exact ⟨(Option.some.inj hp).symm, hperm⟩

/-- C8 witness: the distinct instrument models of the unanimous two-run row,
in the canonical order, joined with commas. -/
theorem C8_platform_join_witness :
    (ordA (pySet ["DNBSEQ-G400", "ILLUMINA"])).Perm
      (pySet ["DNBSEQ-G400", "ILLUMINA"])
    ∧ (processRow md5demo fetchDemo ordA cfgDemo fsDemo rowAgree "t").1.platformUsed
      = some "DNBSEQ-G400,ILLUMINA"
    ∧ "DNBSEQ-G400,ILLUMINA"
      = String.intercalate "," (ordA (pySet ["DNBSEQ-G400", "ILLUMINA"]))
    ∧ (pySet ["DNBSEQ-G400", "ILLUMINA"]).Nodup :=
  ⟨by decide, by decide,
   ((C8_platform_join md5demo fetchDemo ordA cfgDemo fsDemo rowAgree "t"
      (by decide)).1 "DNBSEQ-G400,ILLUMINA" (by decide)).1,
   by decide⟩

/-- C4: the submission XML's ACTIONS contain, besides the ADD action:
exactly one HOLD action with `HoldUntilDate` equal to the configured hold
date formatted `dd-mm-yyyy` when one is set; else exactly one HOLD action
carrying the study's `first_public` string verbatim when it is strictly
greater than today's `YYYY-MM-DD` string; else no HOLD action. -/
theorem C4_hold_date_logic (g : StudyXMLGenerator) (today : String) :
    (∀ d, g.hold_date = some d →
      holdDates (actionsOf (write_submission_xml g today)) = [strftime_dmy d]
      ∧ ((actionsOf (write_submission_xml g today)).filter isHoldAction).length
        = 1)
    ∧ (g.hold_date = none → pyStrLt today g.study_obj.first_public = true →
      holdDates (actionsOf (write_submission_xml g today))
        = [g.study_obj.first_public]
      ∧ ((actionsOf (write_submission_xml g today)).filter isHoldAction).length
        = 1)
    ∧ (g.hold_date = none → pyStrLt today g.study_obj.first_public = false →
      holdDates (actionsOf (write_submission_xml g today)) = []
      ∧ ((actionsOf (write_submission_xml g today)).filter isHoldAction).length
        = 0) := by
  refine ⟨?_, ?_, ?_⟩
  · intro d hd
    simp [write_submission_xml, actionsOf, holdDates, holdAttrValues,
      isHoldAction, hd, Xml.children]
  · intro hd hlt
    simp [write_submission_xml, actionsOf, holdDates, holdAttrValues,
      isHoldAction, hd, hlt, Xml.children]
  · intro hd hlt
    simp [write_submission_xml, actionsOf, holdDates, holdAttrValues,
      isHoldAction, hd, hlt, Xml.children]

/-- C4 witness: an explicit hold date yields `05-03-2024`; a future
`first_public` (`2999-01-01` vs today `2025-01-01`) is used verbatim; a past
`first_public` (`2022-08-02`) yields no HOLD action. -/
theorem C4_hold_date_logic_witness :
    (gHold.hold_date = some ⟨2024, 3, 5⟩
      ∧ holdDates (actionsOf (write_submission_xml gHold "2025-01-01"))
        = ["05-03-2024"])
    ∧ (gFuture.hold_date = none ∧ pyStrLt "2025-01-01" "2999-01-01" = true
      ∧ holdDates (actionsOf (write_submission_xml gFuture "2025-01-01"))
        = ["2999-01-01"]
      ∧ ((actionsOf (write_submission_xml gFuture "2025-01-01")).filter
          isHoldAction).length = 1)
    ∧ (gHolo.hold_date = none ∧ pyStrLt "2025-01-01" "2022-08-02" = false
      ∧ holdDates (actionsOf (write_submission_xml gHolo "2025-01-01")) = []) :=
  ⟨⟨rfl,
    ((C4_hold_date_logic gHold "2025-01-01").1 ⟨2024, 3, 5⟩ rfl).1⟩,
   ⟨rfl, by decide,
    ((C4_hold_date_logic gFuture "2025-01-01").2.1 rfl (by decide)).1,
    ((C4_hold_date_logic gFuture "2025-01-01").2.1 rfl (by decide)).2⟩,
   ⟨rfl, by decide,
    ((C4_hold_date_logic gHolo "2025-01-01").2.2 rfl (by decide)).1⟩⟩

/-- C7: the TITLE element of the registration XML's PROJECT holds the text
`{library title-cased} assembly of {study_accession} data set
({study_title})`; instantiated on the HoloFood fixture this is exactly the
string pinned by the repository's test. -/
theorem C7_title_format (g : StudyXMLGenerator) :
    ((write_study_xml g).children.headD (Xml.text "")).children.headD
        (Xml.text "")
      = Xml.elem "TITLE" []
          [Xml.text (pyTitle g.library ++ " assembly of "
            ++ g.study_obj.study_accession ++ " data set ("
            ++ g.study_obj.study_title ++ ")")]
    ∧ (((write_study_xml gHolo).children.headD (Xml.text "")).children.headD
        (Xml.text "")).innerText
      = some ("Metagenome assembly of PRJEB41657 data set "
          ++ "(HoloFood Salmon Trial A+B Gut Metagenome)") := by
  constructor
  · rfl
  · rfl

/-- C9: `StudyXMLGenerator` construction fails for every library value other
than "metagenome" and "metatranscriptome" (the `assert`), and succeeds for
the two allowed values whenever the study record resolves. -/
theorem C9_library_enum (fetch : String → Bool → Option StudyObj)
    (study center_name library : String) (hold_date : Option Date)
    (tpa : Bool) (publication : Option Nat) (priv : Bool) :
    (library ≠ METAGENOME → library ≠ METATRANSCRIPTOME →
      StudyXMLGenerator.init fetch study center_name library hold_date tpa
        publication priv = none)
    ∧ (∀ so, (library = METAGENOME ∨ library = METATRANSCRIPTOME) →
      fetch study priv = some so →
      (StudyXMLGenerator.init fetch study center_name library hold_date tpa
        publication priv).isSome = true) := by
  constructor
  · intro h1 h2
    simp [StudyXMLGenerator.init, h1, h2]
  · intro so hl hf
    simp [StudyXMLGenerator.init, hl, hf]

/-- C9 witness: the library value "genome" fails construction; "metagenome"
with a resolvable study succeeds. -/
theorem C9_library_enum_witness :
    (("genome" ≠ METAGENOME ∧ "genome" ≠ METATRANSCRIPTOME)
      ∧ StudyXMLGenerator.init fetchStudyDemo "ERP125469" "EMG" "genome" none
          true (some 1234) false = none)
    ∧ (("metagenome" = METAGENOME ∨ "metagenome" = METATRANSCRIPTOME)
      ∧ fetchStudyDemo "ERP125469" false = some studyDemo
      ∧ (StudyXMLGenerator.init fetchStudyDemo "ERP125469" "EMG" "metagenome"
          none true (some 1234) false).isSome = true) :=
  ⟨⟨⟨by decide, by decide⟩,
    (C9_library_enum fetchStudyDemo "ERP125469" "EMG" "genome" none true
      (some 1234) false).1 (by decide) (by decide)⟩,
   ⟨Or.inl (by decide), by decide,
    (C9_library_enum fetchStudyDemo "ERP125469" "EMG" "metagenome" none true
      (some 1234) false).2 studyDemo (Or.inl (by decide)) (by decide)⟩⟩

end AssemblyUploader
